import Mathlib

/-!
Verification of the fontpreview layout/composition engine.

Shallow embedding of `fontpreview/fontpreview.py` and
`fontpreview/fontpage.py`. Python integers are `Int`; Python tuple
comparison on pairs is modelled by `pyGtPair` / `pyLtPair`
(lexicographic); Python floor division `//` is `Int.fdiv`; code that
raises is modelled with `Except` or an explicit success flag.
-/

/-- Python `(a1, a2) > (b1, b2)` on pairs of integers: lexicographic.
This is the comparison performed by `text_size > self.dimension` in
`FontPreview.__resize` (fontpreview.py line 126). -/
def pyGtPair (a b : Int × Int) : Bool :=
  decide (a.1 > b.1 ∨ (a.1 = b.1 ∧ a.2 > b.2))

/-- Python `(a1, a2) < (b1, b2)` on pairs of integers: lexicographic.
This is the comparison performed by `self.header.image.size < logo.image.size`
in `FontPage.set_logo` (fontpage.py line 176). -/
def pyLtPair (a b : Int × Int) : Bool :=
  decide (a.1 < b.1 ∨ (a.1 = b.1 ∧ a.2 < b.2))

/-- Component-wise "exceeds" predicate, written from the spec's words
("text width > canvas width OR text height > canvas height").  It exists
only to be compared against `pyGtPair`, the comparison the code performs. -/
def specExceedsComponentwise (a b : Int × Int) : Bool :=
  decide (a.1 > b.1 ∨ a.2 > b.2)

/-- `FontPreview.__resize` (fontpreview.py lines 114-131): while the
measured multi-line text size compares greater than `self.dimension`
(Python tuple comparison), decrement `font_size` by 2 and re-measure.
`m` abstracts the external text measurement
`get_multiline_textsize(draw, font_text, font)` as a function of the
current font size; `fuel` bounds the recursion so the definition is
total — `none` means the loop was still running when fuel ran out. -/
def resizeLoop (m : Int → Int × Int) (dim : Int × Int) : Nat → Int → Option Int
  | 0, s => if pyGtPair (m s) dim then none else some s
  | fuel + 1, s => if pyGtPair (m s) dim then resizeLoop m dim fuel (s - 2) else some s

/-- The slice of `FontPreview` state that `set_font_size` mutates. -/
structure PreviewM where
  font_size : Int
  deriving Repr, DecidableEq

/-- `FontPreview.set_font_size` (fontpreview.py lines 177-190): sets
`font_size := size`, rebinds the font, runs `__resize`, redraws.  The
resulting state depends only on the requested `size`, not on the
previous `font_size`. -/
def set_font_size (m : Int → Int × Int) (dim : Int × Int) (fuel : Nat)
    (_st : PreviewM) (size : Int) : Option PreviewM :=
  (resizeLoop m dim fuel size).map fun r => { font_size := r }

/-- `CALC_POSITION['center']` (fontpreview.py line 31). -/
def calcCenter (ixy fxy : Int × Int) : Int × Int :=
  ((ixy.1 - fxy.1).fdiv 2, (ixy.2 - fxy.2).fdiv 2)

/-- `CALC_POSITION['top']` (fontpreview.py line 32). -/
def calcTop (ixy fxy : Int × Int) : Int × Int :=
  ((ixy.1 - fxy.1).fdiv 2, 0)

/-- `CALC_POSITION['below']` (fontpreview.py line 33). -/
def calcBelow (ixy fxy : Int × Int) : Int × Int :=
  ((ixy.1 - fxy.1).fdiv 2, ixy.2 - fxy.2)

/-- `CALC_POSITION['rcenter']` (fontpreview.py line 34). -/
def calcRcenter (ixy fxy : Int × Int) : Int × Int :=
  (ixy.1 - fxy.1, (ixy.2 - fxy.2).fdiv 2)

/-- `CALC_POSITION['rtop']` (fontpreview.py line 35). -/
def calcRtop (ixy fxy : Int × Int) : Int × Int :=
  (ixy.1 - fxy.1, 0)

/-- `CALC_POSITION['rbelow']` (fontpreview.py line 36). -/
def calcRbelow (ixy fxy : Int × Int) : Int × Int :=
  (ixy.1 - fxy.1, ixy.2 - fxy.2)

/-- `CALC_POSITION['lcenter']` (fontpreview.py line 37). -/
def calcLcenter (ixy fxy : Int × Int) : Int × Int :=
  (0, (ixy.2 - fxy.2).fdiv 2)

/-- `CALC_POSITION['ltop']` (fontpreview.py line 38). -/
def calcLtop (_ixy _fxy : Int × Int) : Int × Int :=
  (0, 0)

/-- `CALC_POSITION['lbelow']` (fontpreview.py line 39). -/
def calcLbelow (ixy fxy : Int × Int) : Int × Int :=
  (0, ixy.2 - fxy.2)

/-- The `CALC_POSITION` dict (fontpreview.py lines 30-40) as a partial
lookup: `none` models a key that is absent from the dict. -/
def CALC_POSITION (s : String) : Option (Int × Int → Int × Int → Int × Int) :=
  if s = "center" then some calcCenter
  else if s = "top" then some calcTop
  else if s = "below" then some calcBelow
  else if s = "rcenter" then some calcRcenter
  else if s = "rtop" then some calcRtop
  else if s = "rbelow" then some calcRbelow
  else if s = "lcenter" then some calcLcenter
  else if s = "ltop" then some calcLtop
  else if s = "lbelow" then some calcLbelow
  else none

/-- The symbolic branch of `FontPreview.set_text_position`
(fontpreview.py lines 220-223): `CALC_POSITION.get(position,
CALC_POSITION['center'])` applied to `(self.dimension, fxy)`. -/
def set_text_position_symbolic (position : String)
    (dimension fxy : Int × Int) : Int × Int :=
  ((CALC_POSITION position).getD calcCenter) dimension fxy

/-- Horizontal alignments named by the spec. -/
inductive HAlign where
  | left
  | hcenter
  | right
  deriving Repr, DecidableEq

/-- Vertical alignments named by the spec. -/
inductive VAlign where
  | top
  | vcenter
  | bottom
  deriving Repr, DecidableEq

/-- The spec's horizontal-axis formula ("left-aligned = 0, right-aligned
= container_w − content_w, centered = (container_w − content_w)/2 using
integer floor division"). -/
def specHorizontal (a : HAlign) (containerW contentW : Int) : Int :=
  match a with
  | .left => 0
  | .hcenter => (containerW - contentW).fdiv 2
  | .right => containerW - contentW

/-- The spec's vertical-axis formula ("top = 0, bottom = container_h −
content_h, centered = (container_h − content_h)/2 floor division"). -/
def specVertical (a : VAlign) (containerH contentH : Int) : Int :=
  match a with
  | .top => 0
  | .vcenter => (containerH - contentH).fdiv 2
  | .bottom => containerH - contentH

/-- State of a `FontPageTemplate` (fontpage.py lines 282-394). -/
structure FontPageTemplate where
  page_height : Int
  unit : Int
  header_font_size : Int
  header_units : Int
  header_text_position : String
  body_font_size : Int
  body_units : Int
  body_text_position : String
  footer_font_size : Int
  footer_units : Int
  footer_text_position : String
  deriving Repr, DecidableEq

/-- `FontPageTemplate.__init__` (fontpage.py lines 287-311):
`unit = page_height // units_number` (Python floor division), then the
default bands: header 1 unit at font size 120, body 3 units at 140,
footer 2 units at 120, all anchored at `'center'`. -/
def FontPageTemplate.init (page_height : Int) (units_number : Int) : FontPageTemplate :=
  let u := page_height.fdiv units_number
  { page_height := page_height
    unit := u
    header_font_size := 120
    header_units := u
    header_text_position := "center"
    body_font_size := 140
    body_units := u * 3
    body_text_position := "center"
    footer_font_size := 120
    footer_units := u * 2
    footer_text_position := "center" }

/-- The band contexts accepted by `FontPageTemplate.__check_units`. -/
inductive Band where
  | header
  | body
  | footer
  deriving Repr, DecidableEq

/-- `FontPageTemplate.__check_units` (fontpage.py lines 321-346):
computes the total of the three band heights with `unit` substituted for
the named band and returns `true` when it raises, i.e. when the total
exceeds `page_height`. -/
def FontPageTemplate.check_units_raises (st : FontPageTemplate) (context : Band)
    (unit : Int) : Bool :=
  let total_units :=
    match context with
    | .header => unit + st.body_units + st.footer_units
    | .body => st.header_units + unit + st.footer_units
    | .footer => st.header_units + st.body_units + unit
  decide (total_units > st.page_height)

/-- `FontPageTemplate.set_header` (fontpage.py lines 348-362).  Note the
source assigns `self.header_font_size = font_size` BEFORE calling
`__check_units`, so the font size is mutated even when the call raises.
Returns the state after the call together with `true` on success and
`false` when the call raised. -/
def FontPageTemplate.set_header (st : FontPageTemplate) (font_size units : Int)
    (text_position : String) : FontPageTemplate × Bool :=
  let st1 := { st with header_font_size := font_size }
  let unit := st1.unit * units
  if st1.check_units_raises .header unit then
    (st1, false)
  else
    ({ st1 with header_units := unit, header_text_position := text_position }, true)

/-- `FontPageTemplate.set_body` (fontpage.py lines 364-378); same shape
as `set_header`, with `body_font_size` assigned before validation. -/
def FontPageTemplate.set_body (st : FontPageTemplate) (font_size units : Int)
    (text_position : String) : FontPageTemplate × Bool :=
  let st1 := { st with body_font_size := font_size }
  let unit := st1.unit * units
  if st1.check_units_raises .body unit then
    (st1, false)
  else
    ({ st1 with body_units := unit, body_text_position := text_position }, true)

/-- `FontPageTemplate.set_footer` (fontpage.py lines 380-394); same shape
as `set_header`, with `footer_font_size` assigned before validation. -/
def FontPageTemplate.set_footer (st : FontPageTemplate) (font_size units : Int)
    (text_position : String) : FontPageTemplate × Bool :=
  let st1 := { st with footer_font_size := font_size }
  let unit := st1.unit * units
  if st1.check_units_raises .footer unit then
    (st1, false)
  else
    ({ st1 with footer_units := unit, footer_text_position := text_position }, true)

/-- One `set_header`/`set_body`/`set_footer` call, for reasoning about
arbitrary call sequences. -/
inductive TemplateOp where
  | header (font_size units : Int) (text_position : String)
  | body (font_size units : Int) (text_position : String)
  | footer (font_size units : Int) (text_position : String)

/-- Apply one call, keeping the state the call leaves behind whether it
succeeds or raises. -/
def applyTemplateOp (st : FontPageTemplate) : TemplateOp → FontPageTemplate
  | .header fs u tp => (st.set_header fs u tp).1
  | .body fs u tp => (st.set_body fs u tp).1
  | .footer fs u tp => (st.set_footer fs u tp).1

/-- Run a sequence of template calls. -/
def runTemplateOps (st : FontPageTemplate) : List TemplateOp → FontPageTemplate
  | [] => st
  | op :: ops => runTemplateOps (applyTemplateOp st op) ops

/-- The spec's Page Template invariant:
`header_units + body_units + footer_units ≤ page_height`. -/
def templateInv (st : FontPageTemplate) : Prop :=
  st.header_units + st.body_units + st.footer_units ≤ st.page_height

instance (st : FontPageTemplate) : Decidable (templateInv st) := by
  unfold templateInv
  infer_instance

/-- What a filesystem path can be, as far as `FontBooklet.save` looks. -/
inductive PathKind where
  | missing
  | dir
  | file
  deriving Repr, DecidableEq

/-- `Path.is_dir()`: `true` only for an existing directory. -/
def pathIsDir : PathKind → Bool
  | .dir => true
  | _ => false

/-- `Path.exists()`: `true` for anything that exists. -/
def pathExists : PathKind → Bool
  | .missing => false
  | _ => true

/-- `FontBooklet.save` (fontpage.py lines 423-442): first
`if not folder.is_dir(): raise NotADirectoryError(folder)`, then
`if not folder.exists(): folder.mkdir(parents=True)`, then writes each
page as `page<idx+1>.<extension>`.  The result carries whether `mkdir`
ran and the file names written, in order; `Except.error` models the
raise. -/
def FontBooklet.save (folder : PathKind) (npages : Nat) (extension : String) :
    Except String (Bool × List String) :=
  if ¬ pathIsDir folder then
    .error "NotADirectoryError"
  else
    let created := ¬ pathExists folder
    .ok (created,
      (List.range npages).map fun idx =>
        "page" ++ toString (idx + 1) ++ "." ++ extension)

/-- A band renderer as `FontPage.draw` sees it: its canvas size.  Every
setter of `FontPreview` redraws the canvas from `dimension`
(fontpreview.py `draw`, lines 143-167), so the image size tracks the
stored dimension. -/
structure BandImage where
  width : Int
  height : Int
  deriving Repr, DecidableEq

/-- The slice of `FontPage` state that `__compose`/`draw` read
(fontpage.py lines 36-141): the optional template, the page dimension,
and the three optional band renderers. -/
structure FontPageState where
  template : Option FontPageTemplate
  pageWidth : Int
  pageHeight : Int
  header : Option BandImage
  body : Option BandImage
  footer : Option BandImage
  deriving Repr, DecidableEq

/-- One `Image.paste` call issued by `FontPage.draw`: which band image is
pasted and at which top-left coordinate. -/
structure PastedPart where
  part : Band
  x : Int
  y : Int
  deriving Repr, DecidableEq

/-- `FontPage.__compose` (fontpage.py lines 101-140): default the
template to `FontPageTemplate(self.dimension[1])` when absent, raise
`AttributeError` if header, body or footer is unset — before the page
canvas is recreated — then rebuild each band at the page width and at
the template's band height (the dimension update plus the forced
`set_font_size`/`draw` leave each band's canvas at exactly that size). -/
def FontPageState.compose (st : FontPageState) : Except String FontPageState :=
  let tpl := st.template.getD (FontPageTemplate.init st.pageHeight 6)
  match st.header, st.body, st.footer with
  | some _, some _, some _ =>
    .ok { st with
      template := some tpl
      pageHeight := tpl.page_height
      header := some { width := st.pageWidth, height := tpl.header_units }
      body := some { width := st.pageWidth, height := tpl.body_units }
      footer := some { width := st.pageWidth, height := tpl.footer_units } }
  | _, _, _ => .error "header, body and footer is mandatory object"

/-- `FontPage.draw` (fontpage.py lines 223-246, separator lines aside):
compose, then paste header at `(0, 0)`, body at
`(0, header.image.height)` and footer at
`(0, body.image.height + header.image.height)`, in that order. -/
def FontPageState.draw (st : FontPageState) : Except String (List PastedPart) :=
  match st.compose with
  | .error e => .error e
  | .ok st' =>
    match st'.header, st'.body, st'.footer with
    | some h, some b, some _ =>
      .ok [{ part := .header, x := 0, y := 0 },
           { part := .body, x := 0, y := h.height },
           { part := .footer, x := 0, y := b.height + h.height }]
    | _, _, _ => .error "unreachable: compose guarantees all parts"

/-- A `FontLogo`'s canvas size, as far as `FontPage.set_logo` reads and
writes it. -/
structure LogoImage where
  width : Int
  height : Int
  deriving Repr, DecidableEq

/-- A header banner as `FontPage.set_logo` sees it: stored dimension,
canvas size, the measured size of its text (the external
`get_font_size(header.font, header.font_text)`), and the list of overlay
positions already pasted onto its canvas by `add_image`. -/
structure HeaderBanner where
  dimW : Int
  dimH : Int
  imgW : Int
  imgH : Int
  textW : Int
  textH : Int
  overlays : List (Int × Int)
  deriving Repr, DecidableEq

/-- The slice of `FontPage` state relevant to `set_logo` and to the
`logo` attribute.  In Python an attribute can be unset (only annotated):
`logoAttr = none` models the unset attribute, `some none` models an
explicit `self.logo = None` assignment, and `some (some l)` a stored
logo. -/
structure FontPageLogoState where
  pageWidth : Int
  header : Option HeaderBanner
  logoAttr : Option (Option LogoImage)
  deriving Repr, DecidableEq

/-- Modelled from the spec: `FontLogo.new_size` lives in
`fontbanner.py`, which is not part of the given sources.  The spec
describes the page composer "auto-shrinking the logo below a fixed cap"
when it would not fit the header; `set_logo` calls
`logo.new_size((75, 75))`, so the logo canvas becomes 75×75. -/
def LogoImage.new_size (_lg : LogoImage) (size : Int × Int) : LogoImage :=
  { width := size.1, height := size.2 }

/-- Modelled from the spec: `FontBanner.add_image` lives in
`fontbanner.py`, which is not part of the given sources.  The spec says
it "overlays another renderer's canvas onto this one at the given
position"; the header's own fields are otherwise untouched, so the model
appends the paste position to the header's overlay list. -/
def HeaderBanner.add_image (h : HeaderBanner) (pos : Int × Int) : HeaderBanner :=
  { h with overlays := h.overlays ++ [pos] }

/-- `FontPage.set_logo` (fontpage.py lines 160-186): raise if the header
is unset; shrink the logo to 75×75 when
`header.image.size < logo.image.size` (Python tuple comparison); paste
the logo onto the header canvas at
`CALC_POSITION['lcenter'](header.dimension, get_font_size(...))`.
The page's `logo` attribute is never assigned.  Returns the updated page
state and the (possibly resized) logo object. -/
def FontPageLogoState.set_logo (st : FontPageLogoState) (logo : LogoImage) :
    Except String (FontPageLogoState × LogoImage) :=
  match st.header with
  | none => .error "header attribute is None"
  | some h =>
    let logo :=
      if pyLtPair (h.imgW, h.imgH) (logo.width, logo.height) then
        logo.new_size (75, 75)
      else logo
    let pos := calcLcenter (h.dimW, h.dimH) (h.textW, h.textH)
    .ok ({ st with header := some (h.add_image pos) }, logo)

/-- The header branch of `FontPage.set_header` (fontpage.py lines
142-158) restricted to the fields of `HeaderBanner`: widen the banner to
the page width (updating dimension and redrawing) when its canvas width
differs from the page width. -/
def setHeaderWiden (pageWidth : Int) (h : HeaderBanner) : HeaderBanner :=
  if pageWidth ≠ h.imgW then
    { h with dimW := pageWidth, dimH := h.imgH, imgW := pageWidth }
  else h

/-- `FontPage.__init__` (fontpage.py lines 36-91) restricted to header
and logo: `set_header` when a header is passed (else `self.header =
None`), then `set_logo` when a logo is passed — which never assigns
`self.logo` — else `self.logo = None`. -/
def FontPageLogoState.init (pageWidth : Int) (header : Option HeaderBanner)
    (logo : Option LogoImage) : Except String FontPageLogoState :=
  let st : FontPageLogoState :=
    { pageWidth := pageWidth, header := none, logoAttr := none }
  let st :=
    match header with
    | some h => { st with header := some (setHeaderWiden pageWidth h) }
    | none => st
  match logo with
  | some l => (st.set_logo l).map (·.1)
  | none => .ok { st with logoAttr := some none }

/-- A constant text measurement whose height exceeds the default canvas
height while its width does not. -/
def measureTall : Int → Int × Int := fun _ => (600, 400)

/-- A constant text measurement that fits the default canvas. -/
def measureSmall : Int → Int × Int := fun _ => (600, 300)

/-- A text measurement whose width grows linearly with the font size and
whose height is the (negative) `top - bottom` value typical of
`_bbox2size`. -/
def measureLinear : Int → Int × Int := fun s => (s * 10, -5)

/-- A page with header, body and footer set, at the default A4
dimension, without a template. -/
def pageAllSet : FontPageState :=
  { template := none, pageWidth := 2480, pageHeight := 3508
    header := some { width := 2480, height := 584 }
    body := some { width := 2480, height := 1752 }
    footer := some { width := 2480, height := 1168 } }

/-- The same page with the body left unset. -/
def pageMissingBody : FontPageState :=
  { template := none, pageWidth := 2480, pageHeight := 3508
    header := some { width := 2480, height := 584 }
    body := none
    footer := some { width := 2480, height := 1168 } }

/-- A header banner already at page width, with a measured text size of
300×80 and a clean canvas. -/
def headerEx : HeaderBanner :=
  { dimW := 2480, dimH := 584, imgW := 2480, imgH := 584
    textW := 300, textH := 80, overlays := [] }

/-- A 60×60 logo, smaller than the header canvas. -/
def logoEx : LogoImage := { width := 60, height := 60 }

/-- The page-state that constructing a page from `headerEx` and `logoEx`
produces: the logo is pasted at `lcenter` of the header and the `logo`
attribute is left unset. -/
def pageAfterLogoEx : FontPageLogoState :=
  { pageWidth := 2480
    header := some { headerEx with overlays := [(0, 252)] }
    logoAttr := none }

/-- The template state that the spec's scenario — `set_header(120, 1,
'center')`, then `set_body(170, 3, 'left')`, then `set_footer(100, 2,
'right')` on a 3508-high 6-unit template — leaves behind. -/
def template3508Final : FontPageTemplate :=
  ((((FontPageTemplate.init 3508 6).set_header 120 1 "center").1.set_body
      170 3 "left").1.set_footer 100 2 "right").1

/-! ## Theorems -/

/-- Helper: a single `set_header`/`set_body`/`set_footer` call preserves
the units invariant, whether it succeeds or raises. -/
theorem templateInv_applyOp (st : FontPageTemplate) (op : TemplateOp)
    (h : templateInv st) : templateInv (applyTemplateOp st op) := by
  cases op with
  | header fs u tp =>
    simp only [applyTemplateOp, FontPageTemplate.set_header]
    split
    · exact h
    · next hc =>
      simp only [FontPageTemplate.check_units_raises, decide_eq_true_eq, not_lt] at hc
      simpa [templateInv] using hc
  | body fs u tp =>
    simp only [applyTemplateOp, FontPageTemplate.set_body]
    split
    · exact h
    · next hc =>
      simp only [FontPageTemplate.check_units_raises, decide_eq_true_eq, not_lt] at hc
      simpa [templateInv] using hc
  | footer fs u tp =>
    simp only [applyTemplateOp, FontPageTemplate.set_footer]
    split
    · exact h
    · next hc =>
      simp only [FontPageTemplate.check_units_raises, decide_eq_true_eq, not_lt] at hc
      simpa [templateInv] using hc

/-- Helper: the constructor establishes the units invariant (the six
default units fit because `6 * (page_height.fdiv 6) ≤ page_height`). -/
theorem templateInv_init (ph : Int) : templateInv (FontPageTemplate.init ph 6) := by
  simp only [templateInv, FontPageTemplate.init]
  have h1 : ph.fmod 6 + 6 * ph.fdiv 6 = ph := Int.fmod_add_fdiv ph 6
  have h2 : 0 ≤ ph.fmod 6 := Int.fmod_nonneg' ph (by decide)
  linarith

/-- C4: for any page_height ≥ 0 and the default `units_number = 6`, the
invariant `header_units + body_units + footer_units ≤ page_height` holds
after construction and is preserved by every sequence of
`set_header`/`set_body`/`set_footer` calls, whether each call succeeds
or raises. -/
theorem template_units_invariant (ph : Int) (_hph : 0 ≤ ph) (ops : List TemplateOp) :
    templateInv (runTemplateOps (FontPageTemplate.init ph 6) ops) := by
  have hrun : ∀ (l : List TemplateOp) (st : FontPageTemplate), templateInv st →
      templateInv (runTemplateOps st l) := by
    intro l
    induction l with
    | nil => intro st h; exact h
    | cons op l ih =>
      intro st h
      exact ih _ (templateInv_applyOp st op h)
  exact hrun ops _ (templateInv_init ph)

/-- Witness for `template_units_invariant` at page_height 3508 and a
concrete call sequence containing one rejected update. -/
theorem template_units_invariant_witness :
    (0 : Int) ≤ 3508 ∧
    templateInv (runTemplateOps (FontPageTemplate.init 3508 6)
      [TemplateOp.header 120 1 "center", TemplateOp.body 170 9 "left",
       TemplateOp.footer 100 2 "right"]) :=
  ⟨by decide, template_units_invariant 3508 (by decide)
    [TemplateOp.header 120 1 "center", TemplateOp.body 170 9 "left",
     TemplateOp.footer 100 2 "right"]⟩

/-- C9: with page_height 3508 and units_number 6 the unit is 584, and
the call sequence `set_header(120, 1, 'center')`;
`set_body(170, 3, 'left')`; `set_footer(100, 2, 'right')` succeeds,
leaving header_units = 584, body_units = 1752, footer_units = 1168, with
sum 3504 ≤ 3508. -/
theorem template_scenario_3508 :
    (FontPageTemplate.init 3508 6).unit = 584 ∧
    ((FontPageTemplate.init 3508 6).set_header 120 1 "center").2 = true ∧
    ((((FontPageTemplate.init 3508 6).set_header 120 1 "center").1.set_body
        170 3 "left").2 = true) ∧
    (((((FontPageTemplate.init 3508 6).set_header 120 1 "center").1.set_body
        170 3 "left").1.set_footer 100 2 "right").2 = true) ∧
    template3508Final.header_units = 584 ∧
    template3508Final.body_units = 1752 ∧
    template3508Final.footer_units = 1168 ∧
    template3508Final.header_units + template3508Final.body_units +
        template3508Final.footer_units = 3504 ∧
    (3504 : Int) ≤ template3508Final.page_height := by
  decide

/-- C3: `FontBooklet.save` evaluated on each kind of target path.  A
missing folder raises `NotADirectoryError` — the `is_dir()` check runs
before the `exists()` check, so the `mkdir(parents=True)` branch is
unreachable; a non-directory target raises; an existing directory gets
`page1.png`, `page2.png`, `page3.png` written in iteration order with no
`mkdir`. -/
theorem booklet_save_cases :
    FontBooklet.save .missing 2 "png" = .error "NotADirectoryError" ∧
    FontBooklet.save .file 2 "png" = .error "NotADirectoryError" ∧
    FontBooklet.save .dir 3 "png" =
      .ok (false, ["page1.png", "page2.png", "page3.png"]) :=
  ⟨rfl, rfl, rfl⟩

/-- C2 counterexample: on the default 3508-template,
`set_header(999, 4, 'center')` raises (4 units overflow the page), yet
the template's `header_font_size` has been changed from 120 to 999 — the
state is not left exactly as it was before the call. -/
theorem set_header_overflow_mutates_font_size :
    ((FontPageTemplate.init 3508 6).set_header 999 4 "center").2 = false ∧
    ((FontPageTemplate.init 3508 6).set_header 999 4 "center").1.header_font_size = 999 ∧
    (FontPageTemplate.init 3508 6).header_font_size = 120 ∧
    ((FontPageTemplate.init 3508 6).set_header 999 4 "center").1 ≠
      FontPageTemplate.init 3508 6 := by
  decide

/-- C2 amended: a `set_header`/`set_body`/`set_footer` call whose
requested band height would make the three band heights exceed
page_height raises, leaving the band heights and text positions of all
three bands unchanged — but the targeted band's font size is assigned
before validation and keeps the requested value. -/
theorem set_band_overflow_raise_effect (st : FontPageTemplate) (fs u : Int)
    (tp : String) :
    (st.unit * u + st.body_units + st.footer_units > st.page_height →
      st.set_header fs u tp = ({ st with header_font_size := fs }, false)) ∧
    (st.header_units + st.unit * u + st.footer_units > st.page_height →
      st.set_body fs u tp = ({ st with body_font_size := fs }, false)) ∧
    (st.header_units + st.body_units + st.unit * u > st.page_height →
      st.set_footer fs u tp = ({ st with footer_font_size := fs }, false)) := by
  refine ⟨fun h => ?_, fun h => ?_, fun h => ?_⟩
  · simp only [FontPageTemplate.set_header]
    split
    · rfl
    · next hc =>
      exfalso
      simp only [FontPageTemplate.check_units_raises, decide_eq_true_eq] at hc
      exact hc h
  · simp only [FontPageTemplate.set_body]
    split
    · rfl
    · next hc =>
      exfalso
      simp only [FontPageTemplate.check_units_raises, decide_eq_true_eq] at hc
      exact hc h
  · simp only [FontPageTemplate.set_footer]
    split
    · rfl
    · next hc =>
      exfalso
      simp only [FontPageTemplate.check_units_raises, decide_eq_true_eq] at hc
      exact hc h

/-- Witness for `set_band_overflow_raise_effect` on the default
3508-template with an overflowing header request. -/
theorem set_band_overflow_raise_effect_witness :
    ((FontPageTemplate.init 3508 6).unit * 4 + (FontPageTemplate.init 3508 6).body_units +
        (FontPageTemplate.init 3508 6).footer_units >
      (FontPageTemplate.init 3508 6).page_height) ∧
    (FontPageTemplate.init 3508 6).set_header 999 4 "x" =
      ({ FontPageTemplate.init 3508 6 with header_font_size := 999 }, false) :=
  ⟨by decide,
    (set_band_overflow_raise_effect (FontPageTemplate.init 3508 6) 999 4 "x").1
      (by decide)⟩

/-- C1 counterexample: with a measured text size of constant (600, 400)
on the default (700, 327) canvas, the text height exceeds the canvas
height (the claim's component-wise condition holds), yet `__resize`
exits immediately without decrementing — Python's `text_size >
self.dimension` is a lexicographic tuple comparison and 600 > 700 is
false. -/
theorem resize_exits_while_height_exceeds :
    resizeLoop measureTall (700, 327) 10 64 = some 64 ∧
    specExceedsComponentwise (measureTall 64) (700, 327) = true := by
  decide

/-- C1 amended: the auto-shrink loop continues exactly while the
measured size is greater than the canvas dimension in Python's
lexicographic tuple order (text width > canvas width, or equal widths
and text height > canvas height), decrementing font_size by 2 and
re-measuring each iteration; it exits as soon as the measured size
compares less-than-or-equal, and any size it returns satisfies that exit
condition. -/
theorem resize_loop_lex_characterization (m : Int → Int × Int) (dim : Int × Int)
    (fuel : Nat) (s : Int) :
    (pyGtPair (m s) dim = false → resizeLoop m dim fuel s = some s) ∧
    (pyGtPair (m s) dim = true →
      resizeLoop m dim (fuel + 1) s = resizeLoop m dim fuel (s - 2)) ∧
    (∀ r, resizeLoop m dim fuel s = some r → pyGtPair (m r) dim = false) := by
  refine ⟨fun h => ?_, fun h => ?_, ?_⟩
  · cases fuel <;> simp [resizeLoop, h]
  · simp [resizeLoop, h]
  · intro r
    induction fuel generalizing s with
    | zero =>
      intro hr
      cases hb : pyGtPair (m s) dim with
      | false =>
        simp only [resizeLoop, hb, Bool.false_eq_true, if_false, Option.some.injEq] at hr
        rw [← hr]
        exact hb
      | true => simp [resizeLoop, hb] at hr
    | succ f ih =>
      intro hr
      cases hb : pyGtPair (m s) dim with
      | false =>
        simp only [resizeLoop, hb, Bool.false_eq_true, if_false, Option.some.injEq] at hr
        rw [← hr]
        exact hb
      | true =>
        simp only [resizeLoop, hb, if_true] at hr
        exact ih (s - 2) hr

/-- Witness for `resize_loop_lex_characterization`: a measurement that
already compares ≤ the canvas makes the loop return the starting size at
once. -/
theorem resize_loop_lex_characterization_witness :
    pyGtPair (measureSmall 64) (700, 327) = false ∧
    resizeLoop measureSmall (700, 327) 10 64 = some 64 :=
  ⟨by decide,
    (resize_loop_lex_characterization measureSmall (700, 327) 10 64).1 (by decide)⟩

/-- C5: whenever some size reachable by steps of 2 from the requested
size fits (as the external font metrics guarantee for real fonts, since
text width shrinks with the font size), `set_font_size` terminates with
a stored font size `r ≤ size` whose measured text compares ≤ the canvas
dimension; the result depends only on the requested size, so a repeated
call with the same oversized size — from any intermediate state,
including the converged one — returns the same fitting size. -/
theorem set_font_size_terminates (m : Int → Int × Int) (dim : Int × Int)
    (size : Int) (n fuel : Nat)
    (hfit : pyGtPair (m (size - 2 * (n : Int))) dim = false) (hfuel : n ≤ fuel) :
    ∃ r, resizeLoop m dim fuel size = some r ∧ r ≤ size ∧
      pyGtPair (m r) dim = false ∧
      set_font_size m dim fuel { font_size := size } size = some { font_size := r } ∧
      set_font_size m dim fuel { font_size := r } size = some { font_size := r } := by
  induction n generalizing size fuel with
  | zero =>
    have h0 : pyGtPair (m size) dim = false := by simpa using hfit
    have hloop : resizeLoop m dim fuel size = some size := by
      cases fuel <;> simp [resizeLoop, h0]
    exact ⟨size, hloop, le_refl _, h0,
      by simp [set_font_size, hloop], by simp [set_font_size, hloop]⟩
  | succ k ih =>
    cases hb : pyGtPair (m size) dim with
    | false =>
      have hloop : resizeLoop m dim fuel size = some size := by
        cases fuel <;> simp [resizeLoop, hb]
      exact ⟨size, hloop, le_refl _, hb,
        by simp [set_font_size, hloop], by simp [set_font_size, hloop]⟩
    | true =>
      obtain ⟨f, rfl⟩ : ∃ f, fuel = f + 1 := ⟨fuel - 1, by omega⟩
      have hstep : resizeLoop m dim (f + 1) size = resizeLoop m dim f (size - 2) := by
        simp [resizeLoop, hb]
      have hfit' : pyGtPair (m (size - 2 - 2 * (k : Int))) dim = false := by
        have harg : size - 2 - 2 * (k : Int) = size - 2 * ((k : Int) + 1) := by ring
        rw [harg]
        have : ((k + 1 : Nat) : Int) = (k : Int) + 1 := by push_cast; ring
        rw [← this]
        exact hfit
      obtain ⟨r, hr, hle, hfitr, _, _⟩ := ih (size - 2) f hfit' (by omega)
      have hloop : resizeLoop m dim (f + 1) size = some r := by rw [hstep]; exact hr
      exact ⟨r, hloop, by omega, hfitr,
        by simp [set_font_size, hloop], by simp [set_font_size, hloop]⟩

/-- Witness for `set_font_size_terminates`: at (700, 327) with a
measurement of width 10·size, a request of 80 shrinks to 70 within 5
steps. -/
theorem set_font_size_terminates_witness :
    pyGtPair (measureLinear (80 - 2 * ((5 : Nat) : Int))) (700, 327) = false ∧
    (5 : Nat) ≤ 10 ∧
    ∃ r, resizeLoop measureLinear (700, 327) 10 80 = some r ∧ r ≤ 80 ∧
      pyGtPair (measureLinear r) (700, 327) = false ∧
      set_font_size measureLinear (700, 327) 10 { font_size := 80 } 80 =
        some { font_size := r } ∧
      set_font_size measureLinear (700, 327) 10 { font_size := r } 80 =
        some { font_size := r } :=
  ⟨by decide, by decide,
    set_font_size_terminates measureLinear (700, 327) 80 5 10 (by decide) (by decide)⟩

/-- C6: `set_text_position` with a symbolic name that is not one of the
9 known anchors does not raise: `CALC_POSITION.get(position,
CALC_POSITION['center'])` falls back to the centered-placement formula,
exactly as if `'center'` had been given. -/
theorem set_text_position_unknown_anchor (position : String)
    (dimension fxy : Int × Int)
    (h : position ∉ (["center", "top", "below", "rcenter", "rtop", "rbelow",
      "lcenter", "ltop", "lbelow"] : List String)) :
    set_text_position_symbolic position dimension fxy = calcCenter dimension fxy := by
  simp only [List.mem_cons, List.not_mem_nil, or_false, not_or] at h
  obtain ⟨h1, h2, h3, h4, h5, h6, h7, h8, h9⟩ := h
  simp [set_text_position_symbolic, CALC_POSITION, h1, h2, h3, h4, h5, h6, h7, h8, h9]

/-- Witness for `set_text_position_unknown_anchor` at the unknown anchor
name `'left'`. -/
theorem set_text_position_unknown_anchor_witness :
    ("left" ∉ (["center", "top", "below", "rcenter", "rtop", "rbelow",
      "lcenter", "ltop", "lbelow"] : List String)) ∧
    set_text_position_symbolic "left" (700, 327) (100, 50) =
      calcCenter (700, 327) (100, 50) :=
  ⟨by decide,
    set_text_position_unknown_anchor "left" (700, 327) (100, 50) (by decide)⟩

/-- C7: each of the 9 entries of `CALC_POSITION` is the pure function of
(container size, content size) the spec assigns to its name: the
horizontal coordinate is 0 (left), container_w − content_w (right) or
(container_w − content_w) // 2 (centered, floor division), the vertical
coordinate is 0 (top), container_h − content_h (bottom) or
(container_h − content_h) // 2 (centered); in particular `'ltop'` yields
(0, 0) for all inputs. -/
theorem calc_position_table_matches_spec (ixy fxy : Int × Int) :
    CALC_POSITION "center" = some calcCenter ∧
    calcCenter ixy fxy =
      (specHorizontal .hcenter ixy.1 fxy.1, specVertical .vcenter ixy.2 fxy.2) ∧
    CALC_POSITION "top" = some calcTop ∧
    calcTop ixy fxy =
      (specHorizontal .hcenter ixy.1 fxy.1, specVertical .top ixy.2 fxy.2) ∧
    CALC_POSITION "below" = some calcBelow ∧
    calcBelow ixy fxy =
      (specHorizontal .hcenter ixy.1 fxy.1, specVertical .bottom ixy.2 fxy.2) ∧
    CALC_POSITION "rcenter" = some calcRcenter ∧
    calcRcenter ixy fxy =
      (specHorizontal .right ixy.1 fxy.1, specVertical .vcenter ixy.2 fxy.2) ∧
    CALC_POSITION "rtop" = some calcRtop ∧
    calcRtop ixy fxy =
      (specHorizontal .right ixy.1 fxy.1, specVertical .top ixy.2 fxy.2) ∧
    CALC_POSITION "rbelow" = some calcRbelow ∧
    calcRbelow ixy fxy =
      (specHorizontal .right ixy.1 fxy.1, specVertical .bottom ixy.2 fxy.2) ∧
    CALC_POSITION "lcenter" = some calcLcenter ∧
    calcLcenter ixy fxy =
      (specHorizontal .left ixy.1 fxy.1, specVertical .vcenter ixy.2 fxy.2) ∧
    CALC_POSITION "ltop" = some calcLtop ∧
    calcLtop ixy fxy =
      (specHorizontal .left ixy.1 fxy.1, specVertical .top ixy.2 fxy.2) ∧
    CALC_POSITION "lbelow" = some calcLbelow ∧
    calcLbelow ixy fxy =
      (specHorizontal .left ixy.1 fxy.1, specVertical .bottom ixy.2 fxy.2) ∧
    calcLtop ixy fxy = (0, 0) := by
  refine ⟨?_, rfl, ?_, rfl, ?_, rfl, ?_, rfl, ?_, rfl, ?_, rfl, ?_, rfl, ?_, rfl,
    ?_, rfl, rfl⟩ <;> simp [CALC_POSITION]

/-- C8: with header, body and footer all set, `FontPage.draw` pastes the
header at y = 0, the body at y = the header image's height (the
template's header_units after composition) and the footer at y = the
body image's height plus the header image's height, in that fixed
order; with any of the three unset, it raises before any canvas work. -/
theorem page_draw_paste_order (st : FontPageState) :
    (∀ hd bd ft, st.header = some hd → st.body = some bd → st.footer = some ft →
      st.draw = .ok
        [{ part := .header, x := 0, y := 0 },
         { part := .body, x := 0,
           y := (st.template.getD (FontPageTemplate.init st.pageHeight 6)).header_units },
         { part := .footer, x := 0,
           y := (st.template.getD (FontPageTemplate.init st.pageHeight 6)).body_units +
                (st.template.getD (FontPageTemplate.init st.pageHeight 6)).header_units }]) ∧
    ((st.header = none ∨ st.body = none ∨ st.footer = none) →
      st.draw = .error "header, body and footer is mandatory object") := by
  constructor
  · intro hd bd ft hh hb hf
    simp [FontPageState.draw, FontPageState.compose, hh, hb, hf]
  · intro hmiss
    rcases hmiss with hh | hb | hf
    · cases hbody : st.body <;> cases hfoot : st.footer <;>
        simp [FontPageState.draw, FontPageState.compose, hh, hbody, hfoot]
    · cases hhead : st.header <;> cases hfoot : st.footer <;>
        simp [FontPageState.draw, FontPageState.compose, hb, hhead, hfoot]
    · cases hhead : st.header <;> cases hbody : st.body <;>
        simp [FontPageState.draw, FontPageState.compose, hf, hhead, hbody]

/-- Witness for `page_draw_paste_order`: the fully-set page pastes at
y = 0, 584 and 2336; the page without a body raises. -/
theorem page_draw_paste_order_witness :
    pageAllSet.draw = .ok
      [{ part := .header, x := 0, y := 0 },
       { part := .body, x := 0, y := 584 },
       { part := .footer, x := 0, y := 2336 }] ∧
    pageMissingBody.draw = .error "header, body and footer is mandatory object" :=
  ⟨(page_draw_paste_order pageAllSet).1 { width := 2480, height := 584 }
      { width := 2480, height := 1752 } { width := 2480, height := 1168 } rfl rfl rfl,
    (page_draw_paste_order pageMissingBody).2 (Or.inr (Or.inl rfl))⟩

/-- C10: `FontPage.set_logo` never assigns the page's `logo` attribute
and, on success, mutates only the header's canvas (one overlay pasted at
the `lcenter` position) and possibly the logo's own size (capped at
75×75 when the header canvas compares smaller than the logo); a page
constructed with both a header and a logo argument therefore ends with
its `logo` attribute unset rather than holding the given logo. -/
theorem set_logo_leaves_logo_attr_unset (w : Int) (hdr : HeaderBanner)
    (lg : LogoImage) :
    (∀ st', FontPageLogoState.init w (some hdr) (some lg) = .ok st' →
      st'.logoAttr = none ∧ st'.pageWidth = w ∧
      st'.header = some ((setHeaderWiden w hdr).add_image
        (calcLcenter ((setHeaderWiden w hdr).dimW, (setHeaderWiden w hdr).dimH)
          ((setHeaderWiden w hdr).textW, (setHeaderWiden w hdr).textH)))) ∧
    (∀ (st st2 : FontPageLogoState) (lg2 : LogoImage),
      st.header = some hdr → st.set_logo lg = .ok (st2, lg2) →
      st2.logoAttr = st.logoAttr ∧ st2.pageWidth = st.pageWidth ∧
      st2.header = some (hdr.add_image
        (calcLcenter (hdr.dimW, hdr.dimH) (hdr.textW, hdr.textH))) ∧
      (lg2 = lg ∨ lg2 = lg.new_size (75, 75))) := by
  constructor
  · intro st' hst
    simp only [FontPageLogoState.init, FontPageLogoState.set_logo, Except.map,
      Except.ok.injEq] at hst
    subst hst
    exact ⟨rfl, rfl, rfl⟩
  · intro st st2 lg2 hh hcall
    simp only [FontPageLogoState.set_logo, hh, Except.ok.injEq, Prod.mk.injEq] at hcall
    obtain ⟨hst2, hlg2⟩ := hcall
    subst hst2
    refine ⟨rfl, rfl, rfl, ?_⟩
    by_cases hc : pyLtPair (hdr.imgW, hdr.imgH) (lg.width, lg.height) = true
    · right
      rw [← hlg2]
      simp [hc]
    · left
      rw [← hlg2]
      simp [hc]

/-- Witness for `set_logo_leaves_logo_attr_unset`: constructing a page
from `headerEx` and `logoEx` leaves the `logo` attribute unset. -/
theorem set_logo_leaves_logo_attr_unset_witness :
    FontPageLogoState.init 2480 (some headerEx) (some logoEx) = .ok pageAfterLogoEx ∧
    pageAfterLogoEx.logoAttr = none :=
  ⟨rfl,
    ((set_logo_leaves_logo_attr_unset 2480 headerEx logoEx).1 pageAfterLogoEx rfl).1⟩
